import Mathlib

/-!
Shallow embedding of the state-synchronization core of
src/workspace_buttons.c (waybar-workspace-buttons): the in-memory state
model (WorkspaceModule), the incremental event interpreter
(handle_event), the visibility resolver (should_show_workspace), the
snapshot fetcher and batched refreshes (fetch_initial_state,
refresh_window_counts, refresh_workspace_monitors) with their JSON-lite
scanners, and the IPC reader structure (per-read line splitting,
needs_update signalling, reconnect behaviour of ipc_monitor_thread).

Modelling conventions: C char arrays holding text are Lean String /
List Char (the C code never stores NUL bytes inside the strings of
interest, and all buffers of interest are NUL-terminated by the code
before use); C int is Int (the payloads of interest are small, far from
int overflow); the results of external popen/hyprctl invocations are
supplied by an Env record so the embedded functions stay pure, and the
set of invocations issued is returned as a List Query trace.
-/

/-- C atoi digit loop: consume leading decimal digits, accumulating the
value; stops at the first non-digit. -/
def atoiDigits : List Char → Int → Int
  | [], acc => acc
  | c :: cs, acc =>
    if c.isDigit then atoiDigits cs (acc * 10 + (c.toNat - 48 : Nat)) else acc

/-- C isspace in the default locale: space, tab, newline, vertical tab,
form feed, carriage return. -/
def isCSpace (c : Char) : Bool :=
  c == ' ' || c == '\t' || c == '\n' || c == '\x0b' || c == '\x0c' || c == '\r'

/-- C atoi on a char list: skip leading whitespace, optional sign, then
decimal digits; empty or non-numeric input yields 0. -/
def atoiL (s : List Char) : Int :=
  match s.dropWhile isCSpace with
  | '-' :: rest => - atoiDigits rest 0
  | '+' :: rest => atoiDigits rest 0
  | t => atoiDigits t 0

/-- C atoi on a String. -/
def atoi (s : String) : Int :=
  atoiL s.data

/-- The strchr(payload, ',') split used by the focusedmon handler: the
part before the first comma and the part after it; none when the payload
has no comma (in which case the C handler does nothing). -/
def splitAtComma : List Char → Option (List Char × List Char)
  | [] => none
  | c :: rest =>
    if c = ',' then some ([], rest)
    else
      match splitAtComma rest with
      | some p => some (c :: p.1, p.2)
      | none => none

/-- C strstr: the suffix of s starting at the first occurrence of pat,
or none if pat does not occur in s. -/
def strstr (pat : List Char) : List Char → Option (List Char)
  | [] => if pat.isPrefixOf ([] : List Char) then some ([] : List Char) else none
  | c :: t => if pat.isPrefixOf (c :: t) then some (c :: t) else strstr pat t

theorem strstr_length_le (pat : List Char) :
    ∀ s r, strstr pat s = some r → r.length ≤ s.length := by
  intro s
  induction s with
  | nil =>
    intro r h
    simp only [strstr] at h
    split at h
    · rw [Option.some.injEq] at h
      subst h
      exact Nat.le_refl _
    · cases h
  | cons c t ih =>
    intro r h
    simp only [strstr] at h
    split at h
    · rw [Option.some.injEq] at h
      subst h
      exact Nat.le_refl _
    · exact Nat.le_trans (ih r h) (Nat.le_succ _)

theorem isPrefixOf_length_le :
    ∀ p r : List Char, p.isPrefixOf r = true → p.length ≤ r.length := by
  intro p
  induction p with
  | nil =>
    intro r h
    simp
  | cons c t ih =>
    intro r h
    cases r with
    | nil => simp [List.isPrefixOf] at h
    | cons b bs =>
      simp only [List.isPrefixOf, Bool.and_eq_true] at h
      simp only [List.length_cons]
      exact Nat.succ_le_succ (ih bs h.2)

theorem strstr_pat_length_le (pat : List Char) :
    ∀ s r, strstr pat s = some r → pat.length ≤ r.length := by
  intro s
  induction s with
  | nil =>
    intro r h
    simp only [strstr] at h
    split at h
    · rename_i hpre
      rw [Option.some.injEq] at h
      subst h
      exact isPrefixOf_length_le _ _ hpre
    · cases h
  | cons c t ih =>
    intro r h
    simp only [strstr] at h
    split at h
    · rename_i hpre
      rw [Option.some.injEq] at h
      subst h
      exact isPrefixOf_length_le _ _ hpre
    · exact ih r h

/-- Increment one cell of a count table (C: arr[i]++). -/
def bumpAt (f : Nat → Int) (i : Nat) : Nat → Int :=
  fun j => if j = i then f j + 1 else f j

/-- One iteration body of the refresh_window_counts scan: at a match
position ptr (a suffix starting with the quoted workspace key), find the
next quoted id key and quoted name key from ptr onward, count a regular
workspace when the id key comes first, and count a satellite (special)
workspace when the name value has the special: form. Pointer order
id_ptr < name_ptr corresponds to the id suffix being longer. -/
def clientProcess (ptr : List Char) (reg spec : Nat → Int) :
    (Nat → Int) × (Nat → Int) :=
  let id_ptr := strstr (("\"id\":").data) ptr
  let name_ptr := strstr (("\"name\":").data) ptr
  let reg' :=
    match id_ptr with
    | none => reg
    | some ip =>
      let idEarlier : Bool :=
        match name_ptr with
        | none => true
        | some np => decide (np.length < ip.length)
      if idEarlier then
        let ws_id := atoiL ((ip.drop 5).dropWhile (fun c => c == ' '))
        if 1 ≤ ws_id ∧ ws_id ≤ 9 then bumpAt reg (ws_id - 1).toNat else reg
      else reg
  let spec' :=
    match name_ptr with
    | none => spec
    | some np =>
      let after := (np.drop 7).dropWhile (fun c => c == ' ' || c == '"')
      if (("special:").data).isPrefixOf after then
        let special_id := atoiL (after.drop 8)
        if 1 ≤ special_id ∧ special_id ≤ 9 then
          bumpAt spec (special_id - 1).toNat
        else spec
      else spec
  (reg', spec')

/-- The refresh_window_counts scan loop: repeatedly strstr for the quoted
workspace key, process each match, and continue one char past the match
(the C loop's ptr increment). -/
def scanClientsLoop (reg spec : Nat → Int) (s : List Char) :
    (Nat → Int) × (Nat → Int) :=
  match h : strstr (("\"workspace\"").data) s with
  | none => (reg, spec)
  | some ptr =>
    let rs := clientProcess ptr reg spec
    scanClientsLoop rs.1 rs.2 ptr.tail
termination_by s.length
decreasing_by
  have h1 := strstr_length_le _ s ptr h
  have h2 := strstr_pat_length_le _ s ptr h
  have h3 : ((("\"workspace\"").data).length) = 11 := rfl
  rw [h3] at h2
  cases ptr with
  | nil => simp at h2
  | cons a b =>
    simp only [List.tail_cons]
    simp only [List.length_cons] at h1 h2
    omega

/-- One iteration body of the refresh_workspace_monitors scan: ptr is the
suffix just past a quoted id key; parse the workspace id, find the next
quoted monitor key and the next quoted id key, and when the monitor key
comes first and the id is in range, record the monitor name (chars up to
the closing quote, at most 63 of them, per the C copy loop). -/
def monProcess (ptr : List Char) (wm : Nat → String) : Nat → String :=
  let ws_id := atoiL ptr
  let mon_ptr := strstr (("\"monitor\":").data) ptr
  let next_id := strstr (("\"id\":").data) ptr
  match mon_ptr with
  | none => wm
  | some mp =>
    let monEarlier : Bool :=
      match next_id with
      | none => true
      | some ni => decide (ni.length < mp.length)
    if monEarlier then
      if 1 ≤ ws_id ∧ ws_id ≤ 9 then
        let name :=
          String.mk
            ((((mp.drop 10).dropWhile (fun c => c == ' ' || c == '"')).takeWhile
              (fun c => c != '"')).take 63)
        fun j => if j = (ws_id - 1).toNat then name else wm j
      else wm
    else wm

/-- The refresh_workspace_monitors scan loop: repeatedly strstr for the
quoted id key; each iteration advances 5 chars past the match before
parsing and before the next search (the C loop's ptr += 5). -/
def scanWorkspacesLoop (wm : Nat → String) (s : List Char) : Nat → String :=
  match h : strstr (("\"id\":").data) s with
  | none => wm
  | some ptr => scanWorkspacesLoop (monProcess (ptr.drop 5) wm) (ptr.drop 5)
termination_by s.length
decreasing_by
  have h1 := strstr_length_le _ s ptr h
  have h2 := strstr_pat_length_le _ s ptr h
  have h3 : ((("\"id\":").data).length) = 5 := rfl
  rw [h3] at h2
  simp only [List.length_drop]
  omega

/-- The state portion of the WorkspaceModule struct relevant to the
synchronization core (GTK widget handles, thread handles and the
tertiary color are outside the embedded core). Count tables and the
per-workspace monitor table are indexed 0..8 exactly as the C arrays. -/
structure WorkspaceModule where
  all_outputs : Bool
  show_empty : Bool
  monitor_name : String
  this_monitor_workspace : Int
  user_focused_here : Bool
  workspace_windows : Nat → Int
  special_windows : Nat → Int
  workspace_monitor : Nat → String

/-- State as initialized by wbcffi_init before any fetch: active
workspace 1, user focus here, zeroed counts, empty monitor assignments,
config values as parsed (all-outputs and show-empty default false,
output overriding the monitor name). -/
def wbcffi_init_state (all_outputs show_empty : Bool) (monitor_name : String) :
    WorkspaceModule :=
  { all_outputs := all_outputs
    show_empty := show_empty
    monitor_name := monitor_name
    this_monitor_workspace := 1
    user_focused_here := true
    workspace_windows := fun _ => 0
    special_windows := fun _ => 0
    workspace_monitor := fun _ => "" }

/-- One external hyprctl invocation, as issued by the fetch and refresh
paths; recorded as a trace so that query structure can be stated. -/
inductive Query where
  | monitorsActiveWs (mon : String)
  | monitorsFocused (mon : String)
  | activeWorkspaceFallback
  | workspaceMonitor (i : Nat)
  | clientsCountWs (i : Nat)
  | clientsCountSpecial (i : Nat)
  | clientsBulk
  | workspacesBulk
deriving DecidableEq

/-- Queries whose purpose is obtaining per-workspace window counts
(regular or satellite/special). -/
def isWindowCountQuery : Query → Bool
  | Query.clientsCountWs _ => true
  | Query.clientsCountSpecial _ => true
  | Query.clientsBulk => true
  | _ => false

/-- Results of the external popen/hyprctl calls, supplied as data so the
embedded functions stay pure. A failed popen is modelled by an empty
response (observationally identical to the C code, which leaves the
zeroed/default values in place in that case). -/
structure Env where
  clients_json : String
  workspaces_json : String
  monitorActiveWs : String → Int
  monitorFocused : String → String
  activeWorkspaceGlobal : Int
  workspaceMonitorOf : Nat → String
  clientsCountForWs : Nat → Int
  clientsCountForSpecial : Nat → Int

/-- refresh_window_counts: zero both count tables, issue the single bulk
clients query, and scan its response once (one pass of scanClientsLoop)
producing both the regular and the special per-workspace counts. -/
def refresh_window_counts (env : Env) (mod : WorkspaceModule) :
    WorkspaceModule × List Query :=
  let rs := scanClientsLoop (fun _ => 0) (fun _ => 0) env.clients_json.data
  ({ mod with workspace_windows := rs.1, special_windows := rs.2 },
   [Query.clientsBulk])

/-- refresh_workspace_monitors: zero the monitor table, issue the bulk
workspaces query, and scan its response for id and monitor pairs. -/
def refresh_workspace_monitors (env : Env) (mod : WorkspaceModule) :
    WorkspaceModule × List Query :=
  let wm := scanWorkspacesLoop (fun _ => "") env.workspaces_json.data
  ({ mod with workspace_monitor := wm }, [Query.workspacesBulk])

/-- fetch_initial_state: query this monitor's active workspace and focus
(or the focus-agnostic fallback when the monitor name is unresolved,
defaulting focus to true), then one query per workspace slot for its
owning monitor, then one query per slot for its regular window count and
one per slot for its special window count. -/
def fetch_initial_state (env : Env) (mod : WorkspaceModule) :
    WorkspaceModule × List Query :=
  let p :=
    if mod.monitor_name ≠ "" then
      ({ mod with
          this_monitor_workspace := env.monitorActiveWs mod.monitor_name,
          user_focused_here := env.monitorFocused mod.monitor_name == "true" },
       [Query.monitorsActiveWs mod.monitor_name,
        Query.monitorsFocused mod.monitor_name])
    else
      ({ mod with
          this_monitor_workspace := env.activeWorkspaceGlobal,
          user_focused_here := true },
       [Query.activeWorkspaceFallback])
  let wsMon : Nat → String :=
    fun idx => if idx < 9 then env.workspaceMonitorOf (idx + 1) else ""
  let wsCnt : Nat → Int :=
    fun idx => if idx < 9 then env.clientsCountForWs (idx + 1) else 0
  let spCnt : Nat → Int :=
    fun idx => if idx < 9 then env.clientsCountForSpecial (idx + 1) else 0
  ({ p.1 with
      workspace_monitor := wsMon,
      workspace_windows := wsCnt,
      special_windows := spCnt },
   p.2 ++ (List.range 9).map (fun i => Query.workspaceMonitor (i + 1))
       ++ (List.range 9).map (fun i => Query.clientsCountWs (i + 1))
       ++ (List.range 9).map (fun i => Query.clientsCountSpecial (i + 1)))

/-- handle_event on the char list of the event line, mirroring the
prefix-dispatch of the C function: a workspace switch adopts the payload
id when it is in 1..9 and marks focus here; a focusedmon event parses
monitor and workspace from the comma-separated payload (doing nothing
when there is no comma or the monitor part does not fit the 64-byte C
buffer), sets focus by monitor-name equality and adopts the workspace id
when focused and in range; activespecial and window events trigger the
bulk window-count refresh; workspace lifecycle events trigger the
monitor-assignment refresh; anything else is ignored. -/
def handle_eventL (env : Env) (mod : WorkspaceModule) (ev : List Char) :
    WorkspaceModule :=
  if (("workspace>>").data).isPrefixOf ev then
    let ws := atoiL (ev.drop 11)
    if 1 ≤ ws ∧ ws ≤ 9 then
      { mod with this_monitor_workspace := ws, user_focused_here := true }
    else mod
  else if (("focusedmon>>").data).isPrefixOf ev then
    match splitAtComma (ev.drop 12) with
    | none => mod
    | some p =>
      if p.1.length < 64 then
        let focused := p.1 == mod.monitor_name.data
        let ws := atoiL p.2
        let mod' := { mod with user_focused_here := focused }
        if focused && decide (1 ≤ ws ∧ ws ≤ 9) then
          { mod' with this_monitor_workspace := ws }
        else mod'
      else mod
  else if (("activespecial>>").data).isPrefixOf ev then
    (refresh_window_counts env mod).1
  else if (("openwindow>>").data).isPrefixOf ev
       || (("closewindow>>").data).isPrefixOf ev
       || (("movewindow>>").data).isPrefixOf ev then
    (refresh_window_counts env mod).1
  else if (("createworkspace>>").data).isPrefixOf ev
       || (("destroyworkspace>>").data).isPrefixOf ev then
    (refresh_workspace_monitors env mod).1
  else if (("moveworkspace>>").data).isPrefixOf ev then
    (refresh_workspace_monitors env mod).1
  else mod

/-- handle_event on a String event line. -/
def handle_event (env : Env) (mod : WorkspaceModule) (event : String) :
    WorkspaceModule :=
  handle_eventL env mod event.data

/-- The event-tag dispatch of handle_event: true exactly when the line
matches one of the nine recognized tag markers. -/
def recognized_event (ev : List Char) : Bool :=
  (("workspace>>").data).isPrefixOf ev
  || (("focusedmon>>").data).isPrefixOf ev
  || (("activespecial>>").data).isPrefixOf ev
  || (("openwindow>>").data).isPrefixOf ev
  || (("closewindow>>").data).isPrefixOf ev
  || (("movewindow>>").data).isPrefixOf ev
  || (("createworkspace>>").data).isPrefixOf ev
  || (("destroyworkspace>>").data).isPrefixOf ev
  || (("moveworkspace>>").data).isPrefixOf ev

/-- should_show_workspace: the visibility resolver. ws_index is the
0-based slot index of workspace ws_index + 1, exactly as in the C code;
string emptiness tests model the C first-byte NUL tests. -/
def should_show_workspace (mod : WorkspaceModule) (ws_index : Fin 9) : Bool :=
  let ws_num : Int := (ws_index.val : Int) + 1
  let is_this_monitor_ws : Bool := ws_num == mod.this_monitor_workspace
  let has_windows : Bool := decide (0 < mod.workspace_windows ws_index.val)
  let has_special : Bool := decide (0 < mod.special_windows ws_index.val)
  let on_this_monitor : Bool :=
    mod.all_outputs
    || (mod.monitor_name == "")
    || (mod.workspace_monitor ws_index.val == mod.monitor_name)
    || (mod.workspace_monitor ws_index.val == "")
  if is_this_monitor_ws then true
  else if !on_this_monitor then false
  else if !mod.show_empty && !has_windows && !has_special then false
  else true

/-- The newline split performed on each read buffer by the reader loop of
ipc_monitor_thread: segments between newline bytes, with the trailing
segment (no terminating newline) included; mirrors the strchr loop. -/
def splitNl : List Char → List (List Char)
  | [] => [[]]
  | c :: rest =>
    match splitNl rest with
    | [] => []
    | l :: ls => if c = '\n' then [] :: l :: ls else (c :: l) :: ls

/-- The event lines the reader loop extracts from one read chunk: empty
segments are skipped, and a trailing fragment with no newline is handed
to the interpreter as if it were a complete line. -/
def chunk_events (chunk : String) : List String :=
  ((splitNl chunk.data).filter (fun l => l ≠ [])).map String.mk

/-- One reader-loop iteration over one read chunk: every extracted line
is fed to handle_event in order, and needs_update is raised exactly when
at least one non-empty line was present (recognized or not). -/
def process_chunk (env : Env) (mod : WorkspaceModule) (chunk : String) :
    WorkspaceModule × Bool :=
  let lines := chunk_events chunk
  (lines.foldl (handle_event env) mod, !lines.isEmpty)

/-- The sequence of interpreter calls made for a sequence of socket read
chunks: each chunk is split independently, with no carry of a partial
trailing line into the next read (the C reader keeps no state between
reads). -/
def reader_interpreter_calls (chunks : List String) : List String :=
  (chunks.map chunk_events).flatten

/-- Outcome of one blocking read on the event socket: a data chunk, or a
failure/disconnect (read returning zero or negative). -/
inductive SockRead where
  | chunk (s : String)
  | failed
deriving DecidableEq

/-- Externally visible actions of ipc_monitor_thread's connection
lifecycle. -/
inductive RAction where
  | connectAttempt
  | readCall
  | closeSock
  | sleepSec (n : Nat)
  | exitThread
deriving DecidableEq

/-- Trace of the ipc_monitor_thread while-loop, with the running flag
held true throughout (the scope of the reconnect claims): each data
chunk is one read; each failed read is followed by closing the socket,
sleeping one second and attempting to reconnect, after which the loop
continues (a failed reconnect simply makes the next read fail). -/
def reader_loop_trace : List SockRead → List RAction
  | [] => []
  | SockRead.chunk _ :: rest => RAction.readCall :: reader_loop_trace rest
  | SockRead.failed :: rest =>
    RAction.readCall :: RAction.closeSock :: RAction.sleepSec 1 ::
      RAction.connectAttempt :: reader_loop_trace rest

/-- Trace of ipc_monitor_thread from thread entry: the initial
connect_hyprland_socket attempt, then either the read loop (on success)
or an immediate return from the thread (on failure, with no retry). -/
def ipc_thread_trace (initConnectOk : Bool) (reads : List SockRead) :
    List RAction :=
  if initConnectOk then RAction.connectAttempt :: reader_loop_trace reads
  else [RAction.connectAttempt, RAction.exitThread]

/-! ## Supporting lemmas about the embedded operations -/

theorem isPrefixOf_self_append (p l : List Char) : p.isPrefixOf (p ++ l) = true := by
  induction p with
  | nil => cases l <;> rfl
  | cons c t ih => simp [List.isPrefixOf, ih]

theorem splitAtComma_append (mon rest : List Char) (h : (',') ∉ mon) :
    splitAtComma (mon ++ (',') :: rest) = some (mon, rest) := by
  induction mon with
  | nil => simp [splitAtComma]
  | cons c t ih =>
    have hc : c ≠ (',') := by
      intro he
      exact h (he ▸ List.mem_cons_self c t)
    have ht : (',') ∉ t := fun hm => h (List.mem_cons_of_mem _ hm)
    simp [splitAtComma, hc, ih ht]

/-- A focusedmon event line with a well-formed payload (comma present,
monitor part comma-free) takes exactly the focusedmon branch of
handle_event, reducing it to the branch body. -/
theorem handle_focusedmon (env : Env) (mod : WorkspaceModule)
    (monCs restCs : List Char) (hc : (',') ∉ monCs) :
    handle_eventL env mod ((("focusedmon>>").data) ++ monCs ++ (',') :: restCs) =
      (if monCs.length < 64 then
        (let focused := monCs == mod.monitor_name.data
         let ws := atoiL restCs
         let mod' := { mod with user_focused_here := focused }
         if focused && decide (1 ≤ ws ∧ ws ≤ 9) then
           { mod' with this_monitor_workspace := ws }
         else mod')
       else mod) := by
  have e1 : ((("workspace>>").data).isPrefixOf
      ((("focusedmon>>").data) ++ monCs ++ (',') :: restCs)) = false := rfl
  have e2 : ((("focusedmon>>").data).isPrefixOf
      ((("focusedmon>>").data) ++ monCs ++ (',') :: restCs)) = true :=
    isPrefixOf_self_append _ _
  have e3 : (((("focusedmon>>").data) ++ monCs ++ (',') :: restCs).drop 12) =
      monCs ++ (',') :: restCs := rfl
  simp [handle_eventL, e1, e2, e3, splitAtComma_append monCs restCs hc]

/-- Which active-workspace value (if any) one event line writes, as a
function of the instance's (never-mutated) monitor name: derived from
the two mutating branches of handle_event. -/
def setsActiveToL (mn : List Char) (ev : List Char) : Option Int :=
  if (("workspace>>").data).isPrefixOf ev then
    let ws := atoiL (ev.drop 11)
    if 1 ≤ ws ∧ ws ≤ 9 then some ws else none
  else if (("focusedmon>>").data).isPrefixOf ev then
    match splitAtComma (ev.drop 12) with
    | none => none
    | some p =>
      if p.1.length < 64 then
        if (p.1 == mn) && decide (1 ≤ atoiL p.2 ∧ atoiL p.2 ≤ 9) then
          some (atoiL p.2)
        else none
      else none
  else none

/-- handle_event changes this_monitor_workspace exactly as setsActiveToL
describes, leaving it alone when no write applies. -/
theorem handle_eventL_active (env : Env) (mod : WorkspaceModule) (ev : List Char) :
    (handle_eventL env mod ev).this_monitor_workspace =
      (setsActiveToL mod.monitor_name.data ev).getD mod.this_monitor_workspace := by
  simp only [handle_eventL, setsActiveToL]
  repeat' split
  all_goals rfl

/-- No branch of handle_event ever writes monitor_name. -/
theorem handle_eventL_monitor_name (env : Env) (mod : WorkspaceModule)
    (ev : List Char) :
    (handle_eventL env mod ev).monitor_name = mod.monitor_name := by
  simp only [handle_eventL]
  repeat' split
  all_goals rfl

/-- Both active-workspace writes are guarded by the 1..9 range check. -/
theorem setsActiveToL_range (mn ev : List Char) (w : Int)
    (h : setsActiveToL mn ev = some w) : 1 ≤ w ∧ w ≤ 9 := by
  simp only [setsActiveToL] at h
  repeat' split at h
  all_goals first
    | (rw [Option.some.injEq] at h
       subst h
       first
         | assumption
         | (rename_i hcond
            rw [Bool.and_eq_true, decide_eq_true_eq] at hcond
            exact hcond.2))
    | cases h

theorem handle_event_monitor_name (env : Env) (mod : WorkspaceModule)
    (event : String) :
    (handle_event env mod event).monitor_name = mod.monitor_name :=
  handle_eventL_monitor_name env mod event.data

/-- setsActiveToL on String events. -/
def setsActiveTo (mn : String) (e : String) : Option Int :=
  setsActiveToL mn.data e.data

/-- The value written by the last event of the sequence that writes the
active workspace, if any (arrival order). -/
def lastActiveWrite (mn : String) (evs : List String) : Option Int :=
  evs.foldl (fun acc e =>
    match setsActiveTo mn e with
    | some w => some w
    | none => acc) none

theorem foldl_handle_event_monitor_name (env : Env) (evs : List String) :
    ∀ mod : WorkspaceModule,
      (evs.foldl (handle_event env) mod).monitor_name = mod.monitor_name := by
  induction evs with
  | nil => intro mod; rfl
  | cons e rest ih =>
    intro mod
    simp only [List.foldl_cons]
    rw [ih, handle_event_monitor_name]

theorem splitNl_no_newline (cs : List Char) (h : ('\n') ∉ cs) :
    splitNl cs = [cs] := by
  induction cs with
  | nil => rfl
  | cons c rest ih =>
    have hc : c ≠ ('\n') := by
      intro he
      exact h (he ▸ List.mem_cons_self c rest)
    have ht : ('\n') ∉ rest := fun hm => h (List.mem_cons_of_mem _ hm)
    simp [splitNl, ih ht, hc]

theorem chunk_events_single (e : String) (hnl : ('\n') ∉ e.data) (hne : e ≠ "") :
    chunk_events e = [e] := by
  have h2 : e.data ≠ [] := by
    intro hd
    apply hne
    cases e with
    | mk d =>
      simp at hd
      simp [hd]
  simp [chunk_events, splitNl_no_newline e.data hnl, h2]

/-- The read loop itself never emits a thread exit while running. -/
theorem reader_loop_no_exit (reads : List SockRead) :
    RAction.exitThread ∉ reader_loop_trace reads := by
  induction reads with
  | nil => simp [reader_loop_trace]
  | cons r rest ih =>
    cases r <;> simp [reader_loop_trace, ih]

/-- A focusedmon event line built from a monitor part and a workspace
part around the comma. -/
def focusedmonEvent (monCs restCs : List Char) : String :=
  String.mk ((("focusedmon>>").data) ++ monCs ++ (',') :: restCs)

/-! ## Concrete sample inputs used by witnesses and counterexamples -/

/-- An external environment with empty responses (all queries report
nothing); only its shape matters to the statements below. -/
def env0 : Env :=
  { clients_json := ""
    workspaces_json := ""
    monitorActiveWs := fun _ => 0
    monitorFocused := fun _ => ""
    activeWorkspaceGlobal := 0
    workspaceMonitorOf := fun _ => ""
    clientsCountForWs := fun _ => 0
    clientsCountForSpecial := fun _ => 0 }

/-- Freshly initialized instance whose monitor resolved to DP-1. -/
def mod_dp1 : WorkspaceModule := wbcffi_init_state false false ("DP-1")

/-- Freshly initialized instance with the monitor name not yet resolved. -/
def mod_nomon : WorkspaceModule := wbcffi_init_state false false ("")

/-- Unresolved-monitor instance currently not holding input focus. -/
def mod_nomon_unfocused : WorkspaceModule :=
  { mod_nomon with user_focused_here := false }

/-- DP-1 instance whose slots are all owned by DP-2 and whose active
workspace is 5. -/
def mod_dp1_foreign : WorkspaceModule :=
  { mod_dp1 with
      workspace_monitor := fun _ => "DP-2"
      this_monitor_workspace := 5 }

/-! ## Claim theorems -/

/-- Claim C1: for every slot index in 1..9, every state, local context
and configuration, the visibility resolver never returns hidden for a
slot that equals the local context's active workspace, regardless of the
show-all-outputs and show-empty-workspaces filters and of the slot's
owning monitor (rule-1 precedence in should_show_workspace). -/
theorem c1_active_slot_always_visible (mod : WorkspaceModule) (i : Fin 9)
    (h : (i.val : Int) + 1 = mod.this_monitor_workspace) :
    should_show_workspace mod i = true := by
  simp only [should_show_workspace]
  have hb : ((i.val : Int) + 1 == mod.this_monitor_workspace) = true :=
    beq_iff_eq.mpr h
  simp [hb]

theorem c1_witness :
    ((0 : Fin 9).val : Int) + 1 = mod_dp1.this_monitor_workspace ∧
      should_show_workspace mod_dp1 (0 : Fin 9) = true :=
  ⟨by decide, c1_active_slot_always_visible mod_dp1 (0 : Fin 9) (by decide)⟩

/-- Claim C2 (counterexample to the claim as stated): a focusedmon event
whose named monitor equals this instance's resolved monitor but whose
payload workspace id is out of range (here 10) sets focus here but does
NOT set the active workspace to the payload id, contradicting the
unconditional adopts-the-payload-id reading of the claim. -/
theorem c2_counterexample :
    (handle_event env0 mod_dp1 ("focusedmon>>DP-1,10")).user_focused_here
        = true ∧
    (handle_event env0 mod_dp1 ("focusedmon>>DP-1,10")).this_monitor_workspace
        ≠ 10 := by
  decide

/-- Claim C2 (amended): for every monitor-focus-change event with
payload monitor_name,workspace_id whose monitor part is comma-free and
fits the handler's 64-byte parse buffer: if the named monitor equals
this instance's resolved monitor, the event sets user_focused_here true
and sets the active workspace to the payload workspace id provided that
id is in 1..9, leaving the active workspace unchanged otherwise; if the
named monitor differs, the event sets user_focused_here false. -/
theorem c2_focusedmon_update_amended (env : Env) (mod : WorkspaceModule)
    (monCs restCs : List Char)
    (hc : (',') ∉ monCs) (hlen : monCs.length < 64) :
    (monCs = mod.monitor_name.data →
      (handle_event env mod (focusedmonEvent monCs restCs)).user_focused_here
          = true ∧
      (1 ≤ atoiL restCs ∧ atoiL restCs ≤ 9 →
        (handle_event env mod (focusedmonEvent monCs restCs)).this_monitor_workspace
            = atoiL restCs) ∧
      (¬(1 ≤ atoiL restCs ∧ atoiL restCs ≤ 9) →
        (handle_event env mod (focusedmonEvent monCs restCs)).this_monitor_workspace
            = mod.this_monitor_workspace)) ∧
    (monCs ≠ mod.monitor_name.data →
      (handle_event env mod (focusedmonEvent monCs restCs)).user_focused_here
          = false) := by
  have hev : handle_event env mod (focusedmonEvent monCs restCs) =
      handle_eventL env mod ((("focusedmon>>").data) ++ monCs ++ (',') :: restCs) :=
    rfl
  rw [hev, handle_focusedmon env mod monCs restCs hc, if_pos hlen]
  constructor
  · intro heq
    have hf : (monCs == mod.monitor_name.data) = true := by
      rw [heq]
      exact beq_self_eq_true _
    by_cases hr : 1 ≤ atoiL restCs ∧ atoiL restCs ≤ 9
    · simp [hf, hr]
    · simp [hf, hr]
  · intro hne
    have hf : (monCs == mod.monitor_name.data) = false := by
      simpa using hne
    simp [hf]

theorem c2_witness :
    (handle_event env0 mod_dp1
        (focusedmonEvent (("DP-1").data) (("7").data))).user_focused_here
      = true ∧
    (handle_event env0 mod_dp1
        (focusedmonEvent (("DP-1").data) (("7").data))).this_monitor_workspace
      = 7 := by
  have h :=
    (c2_focusedmon_update_amended env0 mod_dp1 (("DP-1").data) (("7").data)
      (by decide) (by decide)).1 rfl
  refine ⟨h.1, ?_⟩
  rw [h.2.1 (by decide)]
  decide

/-- Claim C3 (counterexample to the claim as stated): a line with an
unrecognized tag does leave the state unchanged, but the reader loop
raises the needs-redisplay signal for every non-empty line, recognized
or not, so processing it does raise the signal. -/
theorem c3_counterexample :
    recognized_event (("customevent>>2").data) = false ∧
    (process_chunk env0 mod_dp1 ("customevent>>2\n")).2 = true := by
  decide

/-- Claim C3 (amended): an event line whose tag is not one of the nine
recognized tags causes no mutation of the state model; however the
reader loop raises the needs-redisplay signal for any non-empty line,
including unrecognized ones. -/
theorem c3_unrecognized_event_amended (env : Env) (mod : WorkspaceModule)
    (e : String) (hrec : recognized_event e.data = false) :
    handle_event env mod e = mod ∧
      (e ≠ "" → ('\n') ∉ e.data → (process_chunk env mod e).2 = true) := by
  constructor
  · simp only [recognized_event, Bool.or_eq_false_iff] at hrec
    obtain ⟨⟨⟨⟨⟨⟨⟨⟨h1, h2⟩, h3⟩, h4⟩, h5⟩, h6⟩, h7⟩, h8⟩, h9⟩ := hrec
    simp [handle_event, handle_eventL, h1, h2, h3, h4, h5, h6, h7, h8, h9]
  · intro hne hnl
    simp [process_chunk, chunk_events_single e hnl hne]

theorem c3_witness :
    handle_event env0 mod_dp1 ("customevent>>1") = mod_dp1 ∧
      (process_chunk env0 mod_dp1 ("customevent>>1")).2 = true := by
  have h := c3_unrecognized_event_amended env0 mod_dp1 ("customevent>>1")
    (by decide)
  exact ⟨h.1, h.2 (by decide) (by decide)⟩

/-- Claim C4: a slot whose owning-monitor field is absent (empty) is
never hidden by the monitor filter — its visibility is the same as with
the monitor filter disabled (all_outputs set) — and the monitor filter
can only hide a slot whose owning monitor is known (non-empty) and
differs from this instance's resolved monitor name (the second part
disables the empty filter to isolate the monitor filter). -/
theorem c4_monitor_filter_fail_open (mod : WorkspaceModule) (i : Fin 9) :
    (mod.workspace_monitor i.val = "" →
      should_show_workspace mod i =
        should_show_workspace { mod with all_outputs := true } i) ∧
    (should_show_workspace { mod with show_empty := true } i = false →
      mod.workspace_monitor i.val ≠ "" ∧
      mod.workspace_monitor i.val ≠ mod.monitor_name) := by
  constructor
  · intro h
    simp [should_show_workspace, h]
  · intro h
    simp only [should_show_workspace] at h
    split at h
    · cases h
    · split at h
      · rename_i hno
        simp only [Bool.not_eq_true', Bool.or_eq_false_iff,
          beq_eq_false_iff_ne] at hno
        obtain ⟨⟨⟨h1, h2⟩, h3⟩, h4⟩ := hno
        exact ⟨h4, h3⟩
      · split at h
        · rename_i hempty
          simp at hempty
        · cases h

theorem c4_witness :
    (should_show_workspace mod_dp1 (0 : Fin 9) =
      should_show_workspace { mod_dp1 with all_outputs := true } (0 : Fin 9)) ∧
    (mod_dp1_foreign.workspace_monitor (0 : Fin 9).val ≠ "" ∧
      mod_dp1_foreign.workspace_monitor (0 : Fin 9).val ≠
        mod_dp1_foreign.monitor_name) :=
  ⟨(c4_monitor_filter_fail_open mod_dp1 (0 : Fin 9)).1 rfl,
   (c4_monitor_filter_fail_open mod_dp1_foreign (0 : Fin 9)).2 (by decide)⟩

/-- Claim C5: for every finite sequence of interpreter events applied in
arrival order, the active-workspace value after the whole sequence
equals the value written by the last event of the sequence that wrote
it, or the initial value when no event wrote it. -/
theorem c5_active_workspace_last_write (env : Env) (mod : WorkspaceModule)
    (evs : List String) :
    (evs.foldl (handle_event env) mod).this_monitor_workspace =
      (lastActiveWrite mod.monitor_name evs).getD mod.this_monitor_workspace := by
  induction evs using List.reverseRecOn with
  | nil => rfl
  | append_singleton evs e ih =>
    have hmn := foldl_handle_event_monitor_name env evs mod
    have hkey := handle_eventL_active env (evs.foldl (handle_event env) mod) e.data
    rw [hmn] at hkey
    rw [List.foldl_append, List.foldl_cons, List.foldl_nil]
    show (handle_eventL env (evs.foldl (handle_event env) mod) e.data).this_monitor_workspace = _
    rw [hkey, ih]
    simp only [lastActiveWrite, List.foldl_append, List.foldl_cons, List.foldl_nil]
    cases hs : setsActiveToL mod.monitor_name.data e.data with
    | none => simp [setsActiveTo, hs]
    | some w => simp [setsActiveTo, hs]

/-- Claim C6 (counterexample to the claim as stated): with this
instance's monitor name unresolved (empty), the focusedmon comparison
does NOT always fail closed: a payload whose monitor field is itself
empty compares equal, so the event sets user_focused_here true (and even
adopts the payload workspace id). -/
theorem c6_counterexample :
    mod_nomon_unfocused.monitor_name = "" ∧
    (handle_event env0 mod_nomon_unfocused ("focusedmon>>,5")).user_focused_here
        = true ∧
    (handle_event env0 mod_nomon_unfocused ("focusedmon>>,5")).this_monitor_workspace
        = 5 := by
  decide

/-- Claim C6 (amended): with this instance's monitor name unresolved
(empty), a focusedmon event whose payload monitor name is non-empty
(comma-free, within the 64-byte parse buffer) leaves
user_focused_here false — the comparison fails closed for every payload
naming an actual (non-empty) monitor. -/
theorem c6_unresolved_monitor_fails_closed_amended (env : Env)
    (mod : WorkspaceModule) (monCs restCs : List Char)
    (hmn : mod.monitor_name = "") (hne : monCs ≠ [])
    (hc : (',') ∉ monCs) (hlen : monCs.length < 64) :
    (handle_event env mod (focusedmonEvent monCs restCs)).user_focused_here
        = false := by
  have hev : handle_event env mod (focusedmonEvent monCs restCs) =
      handle_eventL env mod ((("focusedmon>>").data) ++ monCs ++ (',') :: restCs) :=
    rfl
  rw [hev, handle_focusedmon env mod monCs restCs hc, if_pos hlen]
  have hf : (monCs == mod.monitor_name.data) = false := by
    rw [hmn]
    simpa using hne
  simp [hf]

theorem c6_witness :
    (handle_event env0 mod_nomon
        (focusedmonEvent (("DP-9").data) (("2").data))).user_focused_here
      = false :=
  c6_unresolved_monitor_fails_closed_amended env0 mod_nomon
    (("DP-9").data) (("2").data) rfl (by decide) (by decide) (by decide)

/-- Claim C7 (counterexample to the claim as stated): the full snapshot
fetch does not obtain the window counts through a single bulk query —
its trace contains eighteen per-workspace count queries and no bulk
clients query. -/
theorem c7_counterexample :
    (fetch_initial_state env0 mod_dp1).2.filter isWindowCountQuery ≠
        [Query.clientsBulk] ∧
    ((fetch_initial_state env0 mod_dp1).2.filter isWindowCountQuery).length
        = 18 := by
  decide

/-- Claim C7 (amended): the event-driven window-count refresh obtains
both per-workspace counts from a single bulk clients query (scanned in
one pass by scanClientsLoop), while the startup snapshot fetch instead
issues one count query per workspace for regular counts and one per
workspace for satellite counts (eighteen in total). -/
theorem c7_window_count_queries_amended (env : Env) (mod : WorkspaceModule) :
    (refresh_window_counts env mod).2 = [Query.clientsBulk] ∧
    (fetch_initial_state env mod).2.filter isWindowCountQuery =
      (List.range 9).map (fun i => Query.clientsCountWs (i + 1)) ++
        (List.range 9).map (fun i => Query.clientsCountSpecial (i + 1)) := by
  refine ⟨rfl, ?_⟩
  rcases eq_or_ne mod.monitor_name "" with h | h
  · have ht : (fetch_initial_state env mod).2 =
        [Query.activeWorkspaceFallback]
          ++ (List.range 9).map (fun i => Query.workspaceMonitor (i + 1))
          ++ (List.range 9).map (fun i => Query.clientsCountWs (i + 1))
          ++ (List.range 9).map (fun i => Query.clientsCountSpecial (i + 1)) := by
      simp [fetch_initial_state, h]
    rw [ht]
    decide
  · have ht : (fetch_initial_state env mod).2 =
        [Query.monitorsActiveWs mod.monitor_name,
         Query.monitorsFocused mod.monitor_name]
          ++ (List.range 9).map (fun i => Query.workspaceMonitor (i + 1))
          ++ (List.range 9).map (fun i => Query.clientsCountWs (i + 1))
          ++ (List.range 9).map (fun i => Query.clientsCountSpecial (i + 1)) := by
      simp [fetch_initial_state, h]
    rw [ht]
    simp [List.filter_append, List.filter_cons, isWindowCountQuery]
    decide

/-- Claim C8 (evaluation at the failing input): the reader splits each
read chunk independently and keeps no partial trailing line across
reads, so a read ending mid-line followed by the read completing it
yields two interpreter calls with the two fragments — not one call with
the reassembled line as the claim requires. -/
theorem c8_fragmented_reads_two_calls :
    reader_interpreter_calls [("worksp"), ("ace>>3\n")]
        = [("worksp"), ("ace>>3")] ∧
    reader_interpreter_calls [("worksp"), ("ace>>3\n")]
        ≠ [("workspace>>3")] := by
  decide

/-- Claim C9 (counterexample to the claim as stated): when the initial
connection attempt fails, ipc_monitor_thread returns immediately — the
thread exits while the running flag is set, with no pause and no
reconnection attempt. -/
theorem c9_counterexample :
    ipc_thread_trace false [] = [RAction.connectAttempt, RAction.exitThread] ∧
    RAction.exitThread ∈ ipc_thread_trace false [] ∧
    RAction.sleepSec 1 ∉ ipc_thread_trace false [] := by
  decide

/-- Claim C9 (amended): once the initial connection has succeeded, every
loss of the IPC connection is followed by closing the socket, a pause of
one second and a reconnection attempt, and the reader loop continues —
it never exits while the running flag is set; only a failure of the
initial connection attempt terminates the thread. -/
theorem c9_reconnect_after_loss_amended (reads pre post : List SockRead)
    (hsplit : reads = pre ++ SockRead.failed :: post) :
    RAction.exitThread ∉ ipc_thread_trace true reads ∧
    reader_loop_trace reads =
      reader_loop_trace pre ++
        RAction.readCall :: RAction.closeSock :: RAction.sleepSec 1 ::
          RAction.connectAttempt :: reader_loop_trace post := by
  subst hsplit
  constructor
  · intro hmem
    simp only [ipc_thread_trace, if_true, List.mem_cons] at hmem
    rcases hmem with h | h
    · cases h
    · exact reader_loop_no_exit _ h
  · induction pre with
    | nil => rfl
    | cons r t ih =>
      cases r <;> simp [reader_loop_trace, ih, List.cons_append]

theorem c9_witness :
    RAction.exitThread ∉ ipc_thread_trace true [SockRead.failed] ∧
    reader_loop_trace [SockRead.failed] =
      reader_loop_trace [] ++
        RAction.readCall :: RAction.closeSock :: RAction.sleepSec 1 ::
          RAction.connectAttempt :: reader_loop_trace [] :=
  c9_reconnect_after_loss_amended [SockRead.failed] [] [] rfl

/-- Claim C10: applying any event line to a local context whose active
workspace lies in 1..9 yields an active workspace still in 1..9 — both
the workspace-switch and monitor-focus-change handlers adopt a payload
id only after checking it lies between 1 and 9, so out-of-range ids
leave the active workspace unchanged. -/
theorem c10_active_workspace_range_invariant (env : Env)
    (mod : WorkspaceModule) (e : String)
    (h1 : 1 ≤ mod.this_monitor_workspace) (h2 : mod.this_monitor_workspace ≤ 9) :
    1 ≤ (handle_event env mod e).this_monitor_workspace ∧
      (handle_event env mod e).this_monitor_workspace ≤ 9 := by
  have hk := handle_eventL_active env mod e.data
  rw [show handle_event env mod e = handle_eventL env mod e.data from rfl, hk]
  cases hs : setsActiveToL mod.monitor_name.data e.data with
  | none => simpa using ⟨h1, h2⟩
  | some w =>
    have hw := setsActiveToL_range _ _ _ hs
    simpa using hw

theorem c10_witness :
    (1 ≤ mod_dp1.this_monitor_workspace ∧ mod_dp1.this_monitor_workspace ≤ 9) ∧
    (1 ≤ (handle_event env0 mod_dp1 ("workspace>>12")).this_monitor_workspace ∧
      (handle_event env0 mod_dp1 ("workspace>>12")).this_monitor_workspace ≤ 9) :=
  ⟨⟨by decide, by decide⟩,
   c10_active_workspace_range_invariant env0 mod_dp1 ("workspace>>12")
     (by decide) (by decide)⟩
